import Mathlib

/-!
Verification of the apiv2 middleware of go-egaas-mvp: token codec (jwtToken /
jwtSave), error responder (errorAPI), parameter coercion, the dispatcher
(DefaultHandler) and the ecosystem resolver (checkEcosystem), shallowly
embedded from the Go source.  Machine integers are modelled as `Int` with the
explicit int64 bounds where the source clamps; fallible operations return
`Option` or tagged results; the HTTP response writer and the logger are
modelled as append-only event lists.
-/

namespace ApiV2

/-- The signing secret from the source: `var jwtSecret = "test"`. -/
def jwtSecret : String := "test"

/-- Model of Go `strconv.ParseInt(s, 10, 64)`.  Returns the parsed value and
an ok flag; on a syntax error the value is 0, on overflow the value is clamped
to the int64 range, in both cases with `ok = false`, matching Go's behaviour
of returning (0, ErrSyntax) or (clamped, ErrRange). -/
def int64Max : Int := 9223372036854775807

/-- Lower bound of the int64 range. -/
def int64Min : Int := -9223372036854775808

/-- Digit run of `parseInt64`: all characters must be decimal digits. -/
def parseInt64Digits (digits : List Char) (neg : Bool) : Int × Bool :=
  if digits = [] then (0, false)
  else if ¬ digits.all Char.isDigit then (0, false)
  else
    let n : Nat := digits.foldl (fun acc c => acc * 10 + (c.toNat - 48)) 0
    let v : Int := if neg then -(n : Int) else (n : Int)
    if v > int64Max then (int64Max, false)
    else if v < int64Min then (int64Min, false)
    else (v, true)

/-- Model of Go `strconv.ParseInt(s, 10, 64)` (see `int64Max`): an optional
sign followed by decimal digits. -/
def parseInt64 (s : String) : Int × Bool :=
  match s.toList with
  | [] => (0, false)
  | c :: rest =>
    if c = '-' then parseInt64Digits rest true
    else if c = '+' then parseInt64Digits rest false
    else parseInt64Digits (c :: rest) false

/-- Value of a hexadecimal digit, as in Go `encoding/hex.fromHexChar`. -/
def hexVal (c : Char) : Option Nat :=
  if '0' ≤ c ∧ c ≤ '9' then some (c.toNat - 48)
  else if 'a' ≤ c ∧ c ≤ 'f' then some (c.toNat - 97 + 10)
  else if 'A' ≤ c ∧ c ≤ 'F' then some (c.toNat - 65 + 10)
  else none

/-- Model of Go `encoding/hex.DecodeString`: decodes pairs of hex digits into
bytes; an invalid character or an odd length is an error (`none`); the empty
string decodes to the empty byte slice. -/
def hexDecodeChars : List Char → Option (List Nat)
  | [] => some []
  | [_] => none
  | c1 :: c2 :: rest =>
    match hexVal c1, hexVal c2, hexDecodeChars rest with
    | some h, some l, some bs => some ((h * 16 + l) :: bs)
    | _, _, _ => none

/-- `hex.DecodeString` on a Lean `String` (see `hexDecodeChars`). -/
def hexDecode (s : String) : Option (List Nat) :=
  hexDecodeChars s.toList

/-- The claims structure `JWTClaims` from the source: uid, state, wallet and
the standard-claims expiry (`ExpiresAt`, 0 meaning unset). -/
structure JWTClaims where
  uid : String
  state : String
  wallet : String
  expiresAt : Int
deriving DecidableEq, Repr

/-- JWT signing methods; the keyfunc in `jwtToken` accepts exactly the HMAC
family. -/
inductive SigningMethod
  | HS256
  | HS384
  | HS512
  | RS256
  | ES256
deriving DecidableEq, Repr

/-- Whether the method belongs to `jwt.SigningMethodHMAC`. -/
def SigningMethod.isHMAC : SigningMethod → Bool
  | SigningMethod.HS256 => true
  | SigningMethod.HS384 => true
  | SigningMethod.HS512 => true
  | _ => false

/-- Serialization of claims used as the signing payload; a model of the JWT
header/payload encoding performed by the external jwt-go library. -/
def encodeClaims (c : JWTClaims) : String :=
  c.uid ++ ";" ++ c.state ++ ";" ++ c.wallet ++ ";" ++ toString c.expiresAt

/-- Model of the HMAC signature: a deterministic executable keyed function
standing in for the cryptographic MAC computed by the external library.  The
method participates in the digest, as each HMAC variant hashes differently. -/
def macSign (m : SigningMethod) (secret payload : String) : Nat :=
  let tag : Nat :=
    match m with
    | SigningMethod.HS256 => 1
    | SigningMethod.HS384 => 2
    | SigningMethod.HS512 => 3
    | SigningMethod.RS256 => 4
    | SigningMethod.ES256 => 5
  (secret ++ ";" ++ payload).toList.foldl
    (fun h c => (h * 131 + c.toNat) % 1000000007) (7 + tag)

/-- Expiry validation of `jwt.StandardClaims.Valid`: with only `ExpiresAt`
set, the claims are valid when the expiry is unset (0) or not in the past. -/
def claimsValid (c : JWTClaims) (now : Int) : Bool :=
  c.expiresAt == 0 || now ≤ c.expiresAt

/-- Wire form of the token carried after the "Bearer " prefix: either a
string that is not a decodable JWT at all, or a structurally well formed
token with a method, claims and a signature. -/
inductive TokenWire
  | garbage (s : String)
  | jwt (method : SigningMethod) (claims : JWTClaims) (sig : Nat)
deriving DecidableEq, Repr

/-- The Authorization header of a request: absent, present without the
"Bearer " prefix, or "Bearer " followed by a token body. -/
inductive AuthHeader
  | absent
  | other (value : String)
  | bearer (body : TokenWire)
deriving DecidableEq, Repr

/-- A parsed `*jwt.Token`: method, decoded claims and the Valid flag. -/
structure Token where
  method : SigningMethod
  claims : JWTClaims
  valid : Bool
deriving DecidableEq, Repr

/-- Result of `jwtToken`: `(nil, nil)` when no header is present, a non-nil
error from parsing/verification, or a verified token with a nil error.  In
jwt-go, `ParseWithClaims` returns a nil error exactly when the token is
fully valid (well formed, accepted method, unexpired, signature verifies);
every failure is reported through a non-nil error. -/
inductive ParseResult
  | noToken
  | parseError (msg : String)
  | valid (t : Token)
deriving DecidableEq, Repr

/-- Model of `jwt.ParseWithClaims` together with the keyfunc passed by
`jwtToken`: reject non-HMAC methods (keyfunc error), validate expiry, verify
the signature against the secret; any failure yields a non-nil error. -/
def parseWithClaims (body : TokenWire) (secret : String) (now : Int) : ParseResult :=
  match body with
  | TokenWire.garbage _ => ParseResult.parseError "token contains an invalid number of segments"
  | TokenWire.jwt m c sig =>
    if ¬ m.isHMAC then ParseResult.parseError "Unexpected signing method"
    else if ¬ claimsValid c now then ParseResult.parseError "Token is expired"
    else if sig = macSign m secret (encodeClaims c) then ParseResult.valid ⟨m, c, true⟩
    else ParseResult.parseError "signature is invalid"

/-- `jwtToken` from the source: no header is `(nil, nil)`; a header without
the "Bearer " prefix is the error "wrong authorization value"; otherwise the
stripped body is parsed and verified. -/
def jwtToken (auth : AuthHeader) (secret : String) (now : Int) : ParseResult :=
  match auth with
  | AuthHeader.absent => ParseResult.noToken
  | AuthHeader.other _ => ParseResult.parseError "wrong authorization value"
  | AuthHeader.bearer body => parseWithClaims body secret now

/-- `jwtSave` from the source: sign the claims with HS256 under the secret
and set the response Authorization header to "Bearer " plus the token.  The
returned value is that header, in the same wire form `jwtToken` consumes. -/
def jwtSave (secret : String) (claims : JWTClaims) : AuthHeader :=
  AuthHeader.bearer
    (TokenWire.jwt SigningMethod.HS256 claims
      (macSign SigningMethod.HS256 secret (encodeClaims claims)))

/-- One action on the HTTP response writer.  `errBody` is the single-line
JSON error envelope written by `errorAPI` (code, message, optional quoted
params list); `body` is the success payload written by the dispatcher. -/
inductive WriteEvent
  | header (name value : String)
  | status (code : Nat)
  | errBody (code : String) (msg : String) (params : Option (List String))
  | body (s : String)
deriving DecidableEq, Repr

/-- One record emitted through the request logger, tagged by severity. -/
inductive LogEvent
  | info (s : String)
  | warning (s : String)
  | error (s : String)
deriving DecidableEq, Repr

/-- The `err interface\x7b\x7d` argument of `errorAPI`: either a plain string
(possibly a registry code) or an error object. -/
inductive APIErr
  | str (s : String)
  | err (msg : String)
deriving DecidableEq, Repr

/-- Modelled from the spec: the error-code-to-message registry (the `errors`
map), which is not among the shown source files.  Per the spec's Error
Responder contract, each registered code maps to a human-message template;
the codes used by the shown code are registered here. -/
def errors : List (String × String) :=
  [("E_ECOSYSTEM", "Ecosystem %d does not exist"),
   ("E_NOTINSTALLED", "Platform is not installed"),
   ("E_RECOVERED", "API recovered"),
   ("E_SERVER", "Server error"),
   ("E_UNDEFINEVAL", "Undefined value %s")]

/-- Model of `fmt.Sprintf(template, args...)` for the registry templates: an
abstract executable stand-in for Go format-verb substitution (external
stdlib); it combines the template with the arguments deterministically. -/
def sprintfModel (tmpl : String) (args : List String) : String :=
  tmpl ++ " % " ++ String.intercalate " " args

/-- Go's quoted form of one params item. -/
def quoteStr (s : String) : String :=
  "\"" ++ s ++ "\""

/-- The envelope computed by `errorAPI` from its `err` argument: error code,
message and optional params list.  A registered string code with arguments
gets the filled template and the quoted params; a registered code without
arguments gets the bare template; an unregistered string is both code and
message; an error object gets code E_SERVER and its description. -/
def errorEnvelope (err : APIErr) (params : List String) :
    String × String × Option (List String) :=
  match err with
  | APIErr.str v =>
    match errors.lookup v with
    | some tmpl =>
      if params.length > 0 then (v, sprintfModel tmpl params, some (params.map quoteStr))
      else (v, tmpl, none)
    | none => (v, v, none)
  | APIErr.err m => ("E_SERVER", m, none)

/-- The writer actions performed by `errorAPI`: set the nosniff header, write
the HTTP status, write the JSON error envelope. -/
def errorAPIEvents (err : APIErr) (code : Nat) (params : List String) :
    List WriteEvent :=
  [WriteEvent.header "X-Content-Type-Options" "nosniff",
   WriteEvent.status code,
   WriteEvent.errBody (errorEnvelope err params).1 (errorEnvelope err params).2.1
     (errorEnvelope err params).2.2]

/-- `errorAPI` from the source: appends its writer actions and returns the
non-nil error `fmt.Errorf(msg)` that makes the caller abort. -/
def errorAPI (w : List WriteEvent) (err : APIErr) (code : Nat)
    (params : List String) : List WriteEvent × String :=
  (w ++ errorAPIEvents err code params, (errorEnvelope err params).2.1)

/-- A decoded parameter value in `data.params`: the `interface\x7b\x7d` held
there is a string (path params, pString), an int64 (pInt64) or a byte slice
(pHex). -/
inductive ParamValue
  | str (s : String)
  | int (i : Int)
  | bytes (b : List Nat)
deriving DecidableEq, Repr

/-- The parameter-kind constants from the source. -/
def pInt64 : Nat := 0

/-- pHex parameter kind. -/
def pHex : Nat := 1

/-- pString parameter kind. -/
def pString : Nat := 2

/-- The optionality flag 0x100. -/
def pOptional : Nat := 256

/-- Go `r.FormValue(key)`: the form value, or the empty string if absent. -/
def formValue (form : List (String × String)) (key : String) : String :=
  match form.lookup key with
  | some v => v
  | none => ""

/-- Map-style assignment `params[key] = v` on the association list. -/
def insertParam : List (String × ParamValue) → String → ParamValue →
    List (String × ParamValue)
  | [], k, v => [(k, v)]
  | (k1, v1) :: rest, k, v =>
    if k1 = k then (k, v) :: rest else (k1, v1) :: insertParam rest k v

/-- Map lookup `params[key]`. -/
def lookupParam (ps : List (String × ParamValue)) (k : String) :
    Option ParamValue :=
  ps.lookup k

/-- Result of the parameter-coercion loop of `DefaultHandler`: either all
schema entries were processed, or the loop aborted on a required-but-missing
value (E_UNDEFINEVAL) or on a hex decode failure. -/
inductive CoerceResult
  | ok (ps : List (String × ParamValue)) (l : List LogEvent)
  | abortMissing (key : String) (l : List LogEvent)
  | abortHex (key : String) (l : List LogEvent)
deriving DecidableEq, Repr

/-- The per-entry coercion loop (source lines 214-237): for each schema
entry, a required entry with an empty form value aborts with E_UNDEFINEVAL;
pInt64 always stores the `strconv.ParseInt` value (0 on a parse failure,
which is only logged); pHex aborts on a decode failure and stores the bytes
otherwise; pString stores the raw string. -/
def coerceParams (form : List (String × String)) :
    List (String × Nat) → List (String × ParamValue) → List LogEvent →
    CoerceResult
  | [], ps, l => CoerceResult.ok ps l
  | (key, par) :: rest, ps, l =>
    let val := formValue form key
    if par &&& pOptional = 0 ∧ val = "" then
      CoerceResult.abortMissing key (l ++ [LogEvent.error "undefined val"])
    else if par &&& 255 = pInt64 then
      let r := parseInt64 val
      let l1 := if r.2 then l
        else l ++ [LogEvent.error "converting http parameter to int"]
      coerceParams form rest (insertParam ps key (ParamValue.int r.1)) l1
    else if par &&& 255 = pHex then
      match hexDecode val with
      | none =>
        CoerceResult.abortHex key
          (l ++ [LogEvent.error "decoding http parameter from hex"])
      | some bin => coerceParams form rest (insertParam ps key (ParamValue.bytes bin)) l
    else if par &&& 255 = pString then
      coerceParams form rest (insertParam ps key (ParamValue.str val)) l
    else
      coerceParams form rest ps l

/-- The `data.result interface\x7b\x7d` payload as seen by `json.Marshal`:
nil, a value that serializes to the given JSON text, or a value on which
marshalling fails (e.g. a channel). -/
inductive ResultVal
  | null
  | json (s : String)
  | unserializable (msg : String)
deriving DecidableEq, Repr

/-- Model of `json.Marshal(data.result)`. -/
def marshalResult : ResultVal → Option String
  | ResultVal.null => some "null"
  | ResultVal.json s => some s
  | ResultVal.unserializable _ => none

/-- The per-request `apiData` structure from the source. -/
structure ApiData where
  status : Nat
  result : ResultVal
  params : List (String × ParamValue)
  state : Int
  wallet : Int
  token : ParseResult
deriving DecidableEq, Repr

/-- Outcome of one handler invocation: return nil (possibly after mutating
the data and writing), return a non-nil error, or panic (keeping whatever it
wrote and logged before panicking). -/
inductive HandlerResult
  | ok (d : ApiData) (w : List WriteEvent) (l : List LogEvent)
  | fail (d : ApiData) (w : List WriteEvent) (l : List LogEvent)
  | panicked (w : List WriteEvent) (l : List LogEvent)

/-- An `apiHandle` from the source: it receives the writer, the shared
`apiData` and the logger, and returns an error or nil (or panics). -/
def Handler : Type :=
  ApiData → List WriteEvent → List LogEvent → HandlerResult

/-- Result of running the handler chain: all handlers completed, a handler
returned a non-nil error (the chain stops there), or a handler panicked.
`ran` counts the handlers that were invoked. -/
inductive ChainResult
  | completed (d : ApiData) (w : List WriteEvent) (l : List LogEvent) (ran : Nat)
  | aborted (w : List WriteEvent) (l : List LogEvent) (ran : Nat)
  | panicked (w : List WriteEvent) (l : List LogEvent) (ran : Nat)

/-- Add `k` to the invoked-handler count of a chain result. -/
def ChainResult.addRan (k : Nat) : ChainResult → ChainResult
  | ChainResult.completed d w l n => ChainResult.completed d w l (n + k)
  | ChainResult.aborted w l n => ChainResult.aborted w l (n + k)
  | ChainResult.panicked w l n => ChainResult.panicked w l (n + k)

/-- The handler loop of `DefaultHandler` (source lines 239-243): invoke each
handler in declaration order and return at the first non-nil error; a panic
escapes to the recovery boundary. -/
def runChain : List Handler → ApiData → List WriteEvent → List LogEvent →
    ChainResult
  | [], d, w, l => ChainResult.completed d w l 0
  | h :: rest, d, w, l =>
    match h d w l with
    | HandlerResult.ok d1 w1 l1 => (runChain rest d1 w1 l1).addRan 1
    | HandlerResult.fail _ w1 l1 => ChainResult.aborted w1 l1 1
    | HandlerResult.panicked w1 l1 => ChainResult.panicked w1 l1 1

/-- An inbound HTTP request as the middleware observes it: the Authorization
header, the URL path, the parsed form values and the router path params. -/
structure Request where
  auth : AuthHeader
  path : String
  form : List (String × String)
  pathParams : List (String × String)
deriving DecidableEq, Repr

/-- How a dispatcher run ended. -/
inductive Outcome
  | errNotInstalled
  | errAuthFormat
  | errMissingParam
  | errHexDecode
  | handlerAborted
  | panicRecovered
  | errMarshal
  | ok
deriving DecidableEq, Repr

/-- Observable result of one `DefaultHandler` run: the writer events, the
log, the `apiData` and log as handed to the handler chain (`none` when the
request aborted before the chain), the number of handlers invoked, the value
of the process-wide installed flag afterwards, and the outcome tag. -/
structure DispatchResult where
  writes : List WriteEvent
  logs : List LogEvent
  preChain : Option (ApiData × List LogEvent)
  handlersRan : Nat
  installedAfter : Bool
  outcome : Outcome

/-- Identity derivation from the verified token (source lines 192-207): only
when a token is present, valid and its Wallet claim is a non-empty string are
the State and Wallet claims parsed; each parse failure is logged as a warning
and that field defaults to 0.  Returns (state, wallet, log). -/
def claimsIdentity (tok : ParseResult) (l : List LogEvent) :
    Int × Int × List LogEvent :=
  match tok with
  | ParseResult.valid t =>
    if t.valid ∧ t.claims.wallet.length > 0 then
      let ps := parseInt64 t.claims.state
      let l1 := if ps.2 then l
        else l ++ [LogEvent.warning "converting state to int failed, using 0"]
      let st := if ps.2 then ps.1 else 0
      let pw := parseInt64 t.claims.wallet
      let l2 := if pw.2 then l1
        else l1 ++ [LogEvent.warning "converting wallet to int failed, using 0"]
      let wl := if pw.2 then pw.1 else 0
      (st, wl, l2)
    else (0, 0, l)
  | _ => (0, 0, l)

/-- The router path params copied verbatim into `data.params` (source lines
211-213). -/
def initPathParams (req : Request) : List (String × ParamValue) :=
  req.pathParams.foldl (fun ps kv => insertParam ps kv.1 (ParamValue.str kv.2)) []

/-- The tail of `DefaultHandler` from the handler loop on: run the chain; a
non-nil handler error just returns; a recovered panic becomes the
E_RECOVERED generic server error with HTTP 500; otherwise the result payload
is marshalled (a failure is the E_SERVER error with HTTP 500) and written. -/
def respondChain (installed1 : Bool) (handlers : List Handler) (d : ApiData)
    (w : List WriteEvent) (l : List LogEvent) : DispatchResult :=
  match runChain handlers d w l with
  | ChainResult.aborted w2 l2 n =>
    ⟨w2, l2, some (d, l), n, installed1, Outcome.handlerAborted⟩
  | ChainResult.panicked w2 l2 n =>
    let l3 := l2 ++ [LogEvent.error "panic recovered error"]
    let r := errorAPI w2 (APIErr.str "E_RECOVERED") 500 []
    ⟨r.1, l3, some (d, l), n, installed1, Outcome.panicRecovered⟩
  | ChainResult.completed d2 w2 l2 n =>
    match marshalResult d2.result with
    | none =>
      let l3 := l2 ++ [LogEvent.error "marhsalling http response to json"]
      let r := errorAPI w2 (APIErr.err "json: unsupported type") 500 []
      ⟨r.1, l3, some (d, l), n, installed1, Outcome.errMarshal⟩
    | some s =>
      ⟨w2 ++ [WriteEvent.body s], l2, some (d, l), n, installed1, Outcome.ok⟩

/-- Identity derivation, parameter merging and coercion (aborting per the
coercion rules), then the handler chain. -/
def dispatchParams (installed1 : Bool) (schema : List (String × Nat))
    (handlers : List Handler) (req : Request) (tok : ParseResult)
    (w : List WriteEvent) (l : List LogEvent) : DispatchResult :=
  match coerceParams req.form schema (initPathParams req) (claimsIdentity tok l).2.2 with
  | CoerceResult.abortMissing key l1 =>
    ⟨(errorAPI w (APIErr.str "E_UNDEFINEVAL") 400 [key]).1, l1, none, 0,
     installed1, Outcome.errMissingParam⟩
  | CoerceResult.abortHex _ l1 =>
    ⟨(errorAPI w (APIErr.err "encoding/hex: invalid byte") 400 []).1, l1, none, 0,
     installed1, Outcome.errHexDecode⟩
  | CoerceResult.ok ps l1 =>
    respondChain installed1 handlers
      ⟨0, ResultVal.null, ps, (claimsIdentity tok l).1, (claimsIdentity tok l).2.1, tok⟩
      w l1

/-- The middle of `DefaultHandler` after the installation gate: token
verification (a parse error aborts with HTTP 400), then identity derivation,
parameter coercion and the handler chain (`dispatchParams`). -/
def dispatchAfterAuth (installed1 : Bool) (schema : List (String × Nat))
    (handlers : List Handler) (secret : String) (now : Int) (req : Request)
    (w : List WriteEvent) (l : List LogEvent) : DispatchResult :=
  match jwtToken req.auth secret now with
  | ParseResult.parseError msg =>
    let l1 := l ++ [LogEvent.error "starting session"]
    let r := errorAPI w (APIErr.err msg) 400 []
    ⟨r.1, l1, none, 0, installed1, Outcome.errAuthFormat⟩
  | ParseResult.noToken =>
    dispatchParams installed1 schema handlers req ParseResult.noToken w l
  | ParseResult.valid t =>
    dispatchParams installed1 schema handlers req (ParseResult.valid t) w l

/-- The headers installed unconditionally as the first dispatcher action. -/
def baseHeaders : List WriteEvent :=
  [WriteEvent.header "Access-Control-Allow-Origin" "*",
   WriteEvent.header "Content-Type" "application/json; charset=utf-8"]

/-- The initial log of a request. -/
def baseLog : List LogEvent :=
  [LogEvent.info "received http request"]

/-- The installation-gate condition (source lines 178-182): the server is not
yet marked installed, the path is not the install endpoint, the database
connection is nil and no persistent configuration exists. -/
def notInstalledGate (installed dbConnNil configExists : Bool) (req : Request) :
    Prop :=
  ¬ installed ∧ req.path ≠ "/api/v2/install" ∧ dbConnNil ∧ ¬ configExists

instance (i dn cfg : Bool) (req : Request) :
    Decidable (notInstalledGate i dn cfg req) := by
  unfold notInstalledGate; infer_instance

/-- `DefaultHandler` from the source, for one request.  Inputs beyond the
request: the process-wide installed flag, whether `model.DBConn` is nil and
whether `config.IsExist()` holds (storage/config collaborators), the
parameter schema, the handler chain, the signing secret and the current
time. -/
def DefaultHandler (installed dbConnNil configExists : Bool)
    (schema : List (String × Nat)) (handlers : List Handler)
    (secret : String) (now : Int) (req : Request) : DispatchResult :=
  if notInstalledGate installed dbConnNil configExists req then
    let r := errorAPI baseHeaders (APIErr.str "E_NOTINSTALLED") 500 []
    ⟨r.1, baseLog, none, 0, installed, Outcome.errNotInstalled⟩
  else
    let installed1 := installed || req.path != "/api/v2/install"
    dispatchAfterAuth installed1 schema handlers secret now req baseHeaders baseLog

/-- Result of `checkEcosystem`: the resolved state with unchanged writer and
log on success, the writer and log after `errorAPI` on failure, or the panic
of the `data.params["ecosystem"].(int64)` type assertion when the parameter
is absent or not an int64. -/
inductive EcoResult
  | ok (state : Int) (w : List WriteEvent) (l : List LogEvent)
  | fail (w : List WriteEvent) (l : List LogEvent)
  | assertPanic
deriving DecidableEq, Repr

/-- `checkEcosystem` from the source.  `getNextID` is the storage
collaborator `model.GetNextID("system_states")`.  A non-positive declared
ecosystem resolves to the session `data.state` without consulting storage; a
storage error is passed as an error object to `errorAPI` with HTTP 400; a
declared ecosystem at or above the counter fails with E_ECOSYSTEM naming the
id, HTTP 400. -/
def checkEcosystem (getNextID : Except String Int) (data : ApiData)
    (w : List WriteEvent) (l : List LogEvent) : EcoResult :=
  match lookupParam data.params "ecosystem" with
  | some (ParamValue.int eco) =>
    if eco > 0 then
      match getNextID with
      | Except.error e =>
        let l1 := l ++ [LogEvent.error "getting next id system states"]
        let r := errorAPI w (APIErr.err e) 400 []
        EcoResult.fail r.1 l1
      | Except.ok count =>
        if eco ≥ count then
          let l1 := l ++ [LogEvent.error "state_id is larger then max count"]
          let r := errorAPI w (APIErr.str "E_ECOSYSTEM") 400 [toString eco]
          EcoResult.fail r.1 l1
        else EcoResult.ok eco w l
    else EcoResult.ok data.state w l
  | _ => EcoResult.assertPanic

/-- Whether a writer event is the E_RECOVERED error envelope. -/
def isRecoveredEnvelope : WriteEvent → Bool
  | WriteEvent.errBody c _ _ => c == "E_RECOVERED"
  | _ => false

/-! ### Concrete fixtures used to exercise the definitions -/

/-- A zero-valued `apiData`. -/
def emptyData : ApiData :=
  ⟨0, ResultVal.null, [], 0, 0, ParseResult.noToken⟩

/-- A handler that records that it ran and returns nil. -/
def probeHandler : Handler :=
  fun d w l => HandlerResult.ok d (w ++ [WriteEvent.body "probe"]) l

/-- A handler that writes a response and returns a non-nil error. -/
def failingHandler : Handler :=
  fun d w l => HandlerResult.fail d (w ++ [WriteEvent.status 400]) l

/-- A handler that panics without writing. -/
def panicHandler : Handler :=
  fun _ w l => HandlerResult.panicked w l

/-- Claims whose expiry (10) is in the past relative to time 100. -/
def expiredClaims : JWTClaims :=
  ⟨"1", "2", "5", 10⟩

/-- A request carrying a correctly signed but expired token. -/
def expiredReq : Request :=
  ⟨AuthHeader.bearer
    (TokenWire.jwt SigningMethod.HS256 expiredClaims
      (macSign SigningMethod.HS256 jwtSecret (encodeClaims expiredClaims))),
   "/api/v2/balance", [], []⟩

/-- A request whose form carries non-numeric text for an integer parameter. -/
def badIntReq : Request :=
  ⟨AuthHeader.absent, "/api/v2/x", [("num", "abc")], []⟩

/-- A request whose form carries no value at all. -/
def emptyFormReq : Request :=
  ⟨AuthHeader.absent, "/api/v2/x", [], []⟩

/-- Claims with an empty Wallet but a numeric State, unexpired at time 100. -/
def emptyWalletClaims : JWTClaims :=
  ⟨"1", "2", "", 1000⟩

/-- A request carrying a valid token whose Wallet claim is empty. -/
def emptyWalletReq : Request :=
  ⟨jwtSave jwtSecret emptyWalletClaims, "/api/v2/x", [], []⟩

/-- A request whose form carries non-hexadecimal text for a hex parameter. -/
def badHexReq : Request :=
  ⟨AuthHeader.absent, "/api/v2/x", [("sig", "zz")], []⟩

/-- An `apiData` whose params declare the given ecosystem, with session
partition 9 and wallet 5. -/
def ecoData (eco : Int) : ApiData :=
  ⟨0, ResultVal.null, [("ecosystem", ParamValue.int eco)], 9, 5,
   ParseResult.noToken⟩

/-! ### Helper lemmas -/

lemma addRan_zero (r : ChainResult) : r.addRan 0 = r := by
  cases r <;> simp [ChainResult.addRan]

lemma addRan_addRan (j k : Nat) (r : ChainResult) :
    (r.addRan j).addRan k = r.addRan (j + k) := by
  cases r <;> simp [ChainResult.addRan, Nat.add_assoc]

/-- Running a chain that starts with a completed segment continues from the
segment's final state, with the counts added. -/
lemma runChain_completed_extend (pre : List Handler) :
    ∀ d w l d1 w1 l1 n (rest : List Handler),
      runChain pre d w l = ChainResult.completed d1 w1 l1 n →
      runChain (pre ++ rest) d w l = (runChain rest d1 w1 l1).addRan n := by
  induction pre with
  | nil =>
    intro d w l d1 w1 l1 n rest h
    simp only [runChain] at h
    cases h
    simp [addRan_zero]
  | cons h0 t ih =>
    intro d w l d1 w1 l1 n rest h
    simp only [runChain, List.cons_append] at h ⊢
    cases hh : h0 d w l with
    | ok d2 w2 l2 =>
      rw [hh] at h
      dsimp only at h ⊢
      cases hr : runChain t d2 w2 l2 with
      | completed d3 w3 l3 m =>
        rw [hr] at h
        dsimp only [ChainResult.addRan] at h
        cases h
        simp only [List.append_eq]
        rw [ih d2 w2 l2 d1 w1 l1 m rest hr, addRan_addRan]
      | aborted w3 l3 m =>
        rw [hr] at h; dsimp only [ChainResult.addRan] at h; cases h
      | panicked w3 l3 m =>
        rw [hr] at h; dsimp only [ChainResult.addRan] at h; cases h
    | fail d2 w2 l2 => rw [hh] at h; dsimp only at h; cases h
    | panicked w2 l2 => rw [hh] at h; dsimp only at h; cases h

/-- Coercion of a concatenated schema runs the first part and, when it does
not abort, continues with the second from the resulting state. -/
lemma coerce_append (form : List (String × String)) (s1 s2 : List (String × Nat)) :
    ∀ ps l, coerceParams form (s1 ++ s2) ps l =
      match coerceParams form s1 ps l with
      | CoerceResult.ok a b => coerceParams form s2 a b
      | r => r := by
  induction s1 with
  | nil => intro ps l; simp [coerceParams]
  | cons e t ih =>
    intro ps l
    obtain ⟨key, par⟩ := e
    simp only [List.cons_append, coerceParams]
    by_cases hm : par &&& pOptional = 0 ∧ formValue form key = ""
    · simp [hm]
    · simp only [if_neg hm]
      by_cases hi : par &&& 255 = pInt64
      · simp [hi, ih]
      · simp only [if_neg hi]
        by_cases hh : par &&& 255 = pHex
        · simp only [if_pos hh]
          cases hexDecode (formValue form key) with
          | none => simp
          | some bin => simp [ih]
        · simp only [if_neg hh]
          by_cases hs : par &&& 255 = pString
          · simp [hs, ih]
          · simp [if_neg hs, ih]

/-- Whether coercion aborts, and on which branch, does not depend on the
initial parameter map or log: it is determined by the form and the schema. -/
lemma coerce_ok_indep (form : List (String × String)) (schema : List (String × Nat)) :
    ∀ ps l ps2 l2 a b, coerceParams form schema ps l = CoerceResult.ok a b →
      ∃ a2 b2, coerceParams form schema ps2 l2 = CoerceResult.ok a2 b2 := by
  induction schema with
  | nil =>
    intro ps l ps2 l2 a b _
    exact ⟨ps2, l2, rfl⟩
  | cons e t ih =>
    intro ps l ps2 l2 a b h
    obtain ⟨key, par⟩ := e
    simp only [coerceParams] at h ⊢
    by_cases hm : par &&& pOptional = 0 ∧ formValue form key = ""
    · simp [hm] at h
    · simp only [if_neg hm] at h ⊢
      by_cases hi : par &&& 255 = pInt64
      · simp only [if_pos hi] at h ⊢
        exact ih _ _ _ _ _ _ h
      · simp only [if_neg hi] at h ⊢
        by_cases hh : par &&& 255 = pHex
        · simp only [if_pos hh] at h ⊢
          cases hd : hexDecode (formValue form key) with
          | none => rw [hd] at h; dsimp only at h; cases h
          | some bin =>
            rw [hd] at h
            dsimp only at h ⊢
            exact ih _ _ _ _ _ _ h
        · simp only [if_neg hh] at h ⊢
          by_cases hs : par &&& 255 = pString
          · simp only [if_pos hs] at h ⊢
            exact ih _ _ _ _ _ _ h
          · simp only [if_neg hs] at h ⊢
            exact ih _ _ _ _ _ _ h

/-- `insertParam` leaves other keys unchanged. -/
lemma lookup_insertParam_ne (ps : List (String × ParamValue)) (k k1 : String)
    (v : ParamValue) (hne : k1 ≠ k) :
    lookupParam (insertParam ps k v) k1 = lookupParam ps k1 := by
  have h1 : (k1 == k) = false := beq_eq_false_iff_ne.mpr hne
  induction ps with
  | nil => simp [insertParam, lookupParam, List.lookup, h1]
  | cons e t ih =>
    obtain ⟨ek, ev⟩ := e
    simp only [insertParam]
    by_cases he : ek = k
    · subst he
      simp only [lookupParam, List.lookup, h1]
    · simp only [if_neg he, lookupParam, List.lookup]
      cases h2 : k1 == ek with
      | true => rfl
      | false => exact ih

/-- `insertParam` makes the inserted key map to the inserted value. -/
lemma lookup_insertParam_eq (ps : List (String × ParamValue)) (k : String)
    (v : ParamValue) : lookupParam (insertParam ps k v) k = some v := by
  induction ps with
  | nil => simp [insertParam, lookupParam, List.lookup]
  | cons e t ih =>
    obtain ⟨ek, ev⟩ := e
    simp only [insertParam]
    by_cases he : ek = k
    · subst he; simp [lookupParam, List.lookup]
    · have h3 : (k == ek) = false := beq_eq_false_iff_ne.mpr fun h => he h.symm
      simp only [if_neg he, lookupParam, List.lookup, h3]
      exact ih

/-- Coercion never touches parameters whose key is not in the schema. -/
lemma coerce_preserves_other (form : List (String × String))
    (schema : List (String × Nat)) :
    ∀ ps l a b (k : String), coerceParams form schema ps l = CoerceResult.ok a b →
      k ∉ schema.map Prod.fst → lookupParam a k = lookupParam ps k := by
  induction schema with
  | nil =>
    intro ps l a b k h _
    simp only [coerceParams] at h
    cases h
    rfl
  | cons e t ih =>
    intro ps l a b k h hk
    obtain ⟨key, par⟩ := e
    simp only [List.map, List.mem_cons, not_or] at hk
    obtain ⟨hk1, hk2⟩ := hk
    simp only [coerceParams] at h
    by_cases hm : par &&& pOptional = 0 ∧ formValue form key = ""
    · simp [hm] at h
    · simp only [if_neg hm] at h
      by_cases hi : par &&& 255 = pInt64
      · simp only [if_pos hi] at h
        rw [ih _ _ _ _ _ h hk2, lookup_insertParam_ne _ _ _ _ hk1]
      · simp only [if_neg hi] at h
        by_cases hh : par &&& 255 = pHex
        · simp only [if_pos hh] at h
          cases hd : hexDecode (formValue form key) with
          | none => rw [hd] at h; dsimp only at h; cases h
          | some bin =>
            rw [hd] at h
            dsimp only at h
            rw [ih _ _ _ _ _ h hk2, lookup_insertParam_ne _ _ _ _ hk1]
        · simp only [if_neg hh] at h
          by_cases hs : par &&& 255 = pString
          · simp only [if_pos hs] at h
            rw [ih _ _ _ _ _ h hk2, lookup_insertParam_ne _ _ _ _ hk1]
          · simp only [if_neg hs] at h
            exact ih _ _ _ _ _ h hk2

/-- The coercion loop only appends to the log. -/
lemma coerce_log_extends (form : List (String × String))
    (schema : List (String × Nat)) :
    ∀ ps l a b, coerceParams form schema ps l = CoerceResult.ok a b →
      ∃ s, b = l ++ s := by
  induction schema with
  | nil =>
    intro ps l a b h
    simp only [coerceParams] at h
    cases h
    exact ⟨[], by simp⟩
  | cons e t ih =>
    intro ps l a b h
    obtain ⟨key, par⟩ := e
    simp only [coerceParams] at h
    by_cases hm : par &&& pOptional = 0 ∧ formValue form key = ""
    · simp [hm] at h
    · simp only [if_neg hm] at h
      by_cases hi : par &&& 255 = pInt64
      · simp only [if_pos hi] at h
        by_cases hp : (parseInt64 (formValue form key)).2
        · simp only [if_pos hp] at h
          exact ih _ _ _ _ h
        · simp only [if_neg hp] at h
          obtain ⟨s, hs⟩ := ih _ _ _ _ h
          exact ⟨LogEvent.error "converting http parameter to int" :: s, by simp [hs]⟩
      · simp only [if_neg hi] at h
        by_cases hh : par &&& 255 = pHex
        · simp only [if_pos hh] at h
          cases hd : hexDecode (formValue form key) with
          | none => rw [hd] at h; dsimp only at h; cases h
          | some bin =>
            rw [hd] at h
            dsimp only at h
            exact ih _ _ _ _ h
        · simp only [if_neg hh] at h
          by_cases hs : par &&& 255 = pString
          · simp only [if_pos hs] at h
            exact ih _ _ _ _ h
          · simp only [if_neg hs] at h
            exact ih _ _ _ _ h

/-- `respondChain` always records the data and log handed to the chain. -/
lemma respondChain_preChain (inst : Bool) (hs : List Handler) (d : ApiData)
    (w : List WriteEvent) (l : List LogEvent) :
    (respondChain inst hs d w l).preChain = some (d, l) := by
  unfold respondChain
  cases runChain hs d w l with
  | completed d2 w2 l2 n =>
    dsimp only
    cases marshalResult d2.result <;> rfl
  | aborted w2 l2 n => rfl
  | panicked w2 l2 n => rfl

/-! ### Claim theorems -/

/-- C7: for every claims object with an unexpired expiry, verifying the token
produced by issuing (signing with HMAC-SHA256 under the process secret) that
claims object succeeds: `verify(issue(claims))` yields a valid token whose
decoded claims equal the original claims. -/
theorem c7_token_roundtrip (secret : String) (c : JWTClaims) (now : Int)
    (h : claimsValid c now = true) :
    jwtToken (jwtSave secret c) secret now =
      ParseResult.valid ⟨SigningMethod.HS256, c, true⟩ := by
  simp [jwtSave, jwtToken, parseWithClaims, SigningMethod.isHMAC, h]

/-- Witness for C7 at concrete claims with expiry 1000, verified at time
100. -/
theorem c7_token_roundtrip_witness :
    claimsValid ⟨"1", "2", "5", 1000⟩ 100 = true ∧
    jwtToken (jwtSave jwtSecret ⟨"1", "2", "5", 1000⟩) jwtSecret 100 =
      ParseResult.valid ⟨SigningMethod.HS256, ⟨"1", "2", "5", 1000⟩, true⟩ :=
  ⟨by decide, c7_token_roundtrip jwtSecret ⟨"1", "2", "5", 1000⟩ 100 (by decide)⟩

/-- C3 counterexample: the claim says a storage-layer error while fetching
the partition counter is surfaced as HTTP 500; at this concrete input the
resolver writes HTTP status 400 and no 500. -/
theorem c3_counterexample :
    checkEcosystem (Except.error "db is locked") (ecoData 1) [] [] =
      EcoResult.fail
        [WriteEvent.header "X-Content-Type-Options" "nosniff",
         WriteEvent.status 400,
         WriteEvent.errBody "E_SERVER" "db is locked" none]
        [LogEvent.error "getting next id system states"] ∧
    WriteEvent.status 400 ∈
      [WriteEvent.header "X-Content-Type-Options" "nosniff",
       WriteEvent.status 400,
       WriteEvent.errBody "E_SERVER" "db is locked" none] ∧
    WriteEvent.status 500 ∉
      [WriteEvent.header "X-Content-Type-Options" "nosniff",
       WriteEvent.status 400,
       WriteEvent.errBody "E_SERVER" "db is locked" none] := by
  refine ⟨?_, by decide, by decide⟩
  rfl

/-- C3 amended: a storage-layer error while fetching the partition counter is
surfaced with the generic server-error code E_SERVER, but with HTTP status
400 (a client-error status), not 500. -/
theorem c3_storage_error_status (data : ApiData) (w : List WriteEvent)
    (l : List LogEvent) (e : String) (eco : Int)
    (hp : lookupParam data.params "ecosystem" = some (ParamValue.int eco))
    (heco : eco > 0) :
    checkEcosystem (Except.error e) data w l =
      EcoResult.fail (w ++ errorAPIEvents (APIErr.err e) 400 [])
        (l ++ [LogEvent.error "getting next id system states"]) ∧
    errorAPIEvents (APIErr.err e) 400 [] =
      [WriteEvent.header "X-Content-Type-Options" "nosniff",
       WriteEvent.status 400,
       WriteEvent.errBody "E_SERVER" e none] := by
  constructor
  · simp [checkEcosystem, hp, heco, errorAPI]
  · rfl

/-- Witness for C3's amended theorem at a concrete data value and error. -/
theorem c3_storage_error_status_witness :
    checkEcosystem (Except.error "db is locked") (ecoData 2) [] [] =
      EcoResult.fail ([] ++ errorAPIEvents (APIErr.err "db is locked") 400 [])
        ([] ++ [LogEvent.error "getting next id system states"]) :=
  (c3_storage_error_status (ecoData 2) [] [] "db is locked" 2 (by decide)
    (by decide)).1

/-- C4: the ecosystem resolver returns the caller's session partition
unchanged, without consulting storage, when the declared value is
non-positive; and when the declared value is positive and at or above the
partition counter, it fails with E_ECOSYSTEM naming the invalid id and HTTP
status 400. -/
theorem c4_ecosystem_resolution (data : ApiData) (w : List WriteEvent)
    (l : List LogEvent) (eco count : Int)
    (hp : lookupParam data.params "ecosystem" = some (ParamValue.int eco)) :
    (eco ≤ 0 → ∀ g : Except String Int,
      checkEcosystem g data w l = EcoResult.ok data.state w l) ∧
    (eco > 0 → eco ≥ count →
      checkEcosystem (Except.ok count) data w l =
        EcoResult.fail
          (w ++ errorAPIEvents (APIErr.str "E_ECOSYSTEM") 400 [toString eco])
          (l ++ [LogEvent.error "state_id is larger then max count"])) ∧
    errorAPIEvents (APIErr.str "E_ECOSYSTEM") 400 [toString eco] =
      [WriteEvent.header "X-Content-Type-Options" "nosniff",
       WriteEvent.status 400,
       WriteEvent.errBody "E_ECOSYSTEM"
         (sprintfModel "Ecosystem %d does not exist" [toString eco])
         (some [quoteStr (toString eco)])] := by
  refine ⟨?_, ?_, rfl⟩
  · intro h g
    simp [checkEcosystem, hp, not_lt.mpr h]
  · intro h1 h2
    simp [checkEcosystem, hp, h1, h2, errorAPI]

/-- Witness for C4: with a declared ecosystem of 0 the session partition 9 is
returned untouched; with a declared ecosystem of 7 against counter 3 the
resolver fails naming 7. -/
theorem c4_ecosystem_resolution_witness :
    checkEcosystem (Except.error "never consulted") (ecoData 0) [] [] =
      EcoResult.ok (ecoData 0).state [] [] ∧
    checkEcosystem (Except.ok 3) (ecoData 7) [] [] =
      EcoResult.fail
        ([] ++ errorAPIEvents (APIErr.str "E_ECOSYSTEM") 400 [toString (7 : Int)])
        ([] ++ [LogEvent.error "state_id is larger then max count"]) :=
  ⟨(c4_ecosystem_resolution (ecoData 0) [] [] 0 3 (by decide)).1 (by decide)
      (Except.error "never consulted"),
   (c4_ecosystem_resolution (ecoData 7) [] [] 7 3 (by decide)).2.1 (by decide)
      (by decide)⟩

/-- C5: the dispatcher invokes the declared handlers in order and stops at
the first handler that returns a non-nil error: handlers after the failing
one never run (the run count is the failing handler's position and the
result is independent of what follows), and on a handler failure the
dispatcher returns without marshalling or writing the result payload (the
writes are exactly those made up to the failure). -/
theorem c5_chain_fail_fast (pre post : List Handler) (h : Handler)
    (d d1 d2 : ApiData) (w w1 w2 : List WriteEvent) (l l1 l2 : List LogEvent)
    (n : Nat)
    (hpre : runChain pre d w l = ChainResult.completed d1 w1 l1 n)
    (hfail : h d1 w1 l1 = HandlerResult.fail d2 w2 l2) :
    runChain (pre ++ h :: post) d w l = ChainResult.aborted w2 l2 (n + 1) ∧
    (∀ (inst : Bool) (hs : List Handler) (d0 : ApiData) (w0 : List WriteEvent)
       (l0 : List LogEvent) (wa : List WriteEvent) (la : List LogEvent) (m : Nat),
      runChain hs d0 w0 l0 = ChainResult.aborted wa la m →
      respondChain inst hs d0 w0 l0 =
        ⟨wa, la, some (d0, l0), m, inst, Outcome.handlerAborted⟩) := by
  constructor
  · rw [runChain_completed_extend pre d w l d1 w1 l1 n (h :: post) hpre]
    simp only [runChain]
    rw [hfail]
    dsimp only [ChainResult.addRan]
    rw [Nat.add_comm]
  · intro inst hs d0 w0 l0 wa la m hab
    unfold respondChain
    rw [hab]

/-- Witness for C5: a probe handler succeeds, the second handler fails, a
trailing probe handler never runs (2 of 3 invoked), and the dispatcher tail
returns the failure writes untouched. -/
theorem c5_chain_fail_fast_witness :
    runChain ([probeHandler] ++ failingHandler :: [probeHandler]) emptyData [] [] =
      ChainResult.aborted [WriteEvent.body "probe", WriteEvent.status 400] [] 2 ∧
    respondChain true [probeHandler, failingHandler, probeHandler] emptyData [] [] =
      ⟨[WriteEvent.body "probe", WriteEvent.status 400], [],
       some (emptyData, []), 2, true, Outcome.handlerAborted⟩ := by
  have hc := c5_chain_fail_fast [probeHandler] [probeHandler] failingHandler
    emptyData emptyData emptyData [] [WriteEvent.body "probe"]
    [WriteEvent.body "probe", WriteEvent.status 400] [] [] [] 1 (by rfl) (by rfl)
  exact ⟨hc.1, hc.2 true [probeHandler, failingHandler, probeHandler]
    emptyData [] [] [WriteEvent.body "probe", WriteEvent.status 400] [] 2 hc.1⟩

/-- C6: a panic raised inside any handler of the chain is caught at the
dispatcher boundary: the handlers after the panicking one never run, the
dispatcher returns normally (outcome `panicRecovered`, so nothing
propagates), exactly one E_RECOVERED error envelope is added to whatever was
already written, and the response status written with it is HTTP 500. -/
theorem c6_panic_recovered (pre post : List Handler) (h : Handler)
    (d d1 : ApiData) (w w1 w2 : List WriteEvent) (l l1 l2 : List LogEvent)
    (n : Nat)
    (hpre : runChain pre d w l = ChainResult.completed d1 w1 l1 n)
    (hp : h d1 w1 l1 = HandlerResult.panicked w2 l2) :
    runChain (pre ++ h :: post) d w l = ChainResult.panicked w2 l2 (n + 1) ∧
    (∀ (inst : Bool) (hs : List Handler) (d0 : ApiData) (w0 : List WriteEvent)
       (l0 : List LogEvent) (wa : List WriteEvent) (la : List LogEvent) (m : Nat),
      runChain hs d0 w0 l0 = ChainResult.panicked wa la m →
      respondChain inst hs d0 w0 l0 =
        ⟨wa ++ errorAPIEvents (APIErr.str "E_RECOVERED") 500 [],
         la ++ [LogEvent.error "panic recovered error"],
         some (d0, l0), m, inst, Outcome.panicRecovered⟩ ∧
      WriteEvent.status 500 ∈ (respondChain inst hs d0 w0 l0).writes ∧
      (respondChain inst hs d0 w0 l0).writes.countP
          (fun ev => isRecoveredEnvelope ev) =
        wa.countP (fun ev => isRecoveredEnvelope ev) + 1) := by
  constructor
  · rw [runChain_completed_extend pre d w l d1 w1 l1 n (h :: post) hpre]
    simp only [runChain]
    rw [hp]
    dsimp only [ChainResult.addRan]
    rw [Nat.add_comm]
  · intro inst hs d0 w0 l0 wa la m hpan
    have hres : respondChain inst hs d0 w0 l0 =
        ⟨wa ++ errorAPIEvents (APIErr.str "E_RECOVERED") 500 [],
         la ++ [LogEvent.error "panic recovered error"],
         some (d0, l0), m, inst, Outcome.panicRecovered⟩ := by
      unfold respondChain
      rw [hpan]
      rfl
    refine ⟨hres, ?_, ?_⟩
    · rw [hres]
      simp [errorAPIEvents]
    · rw [hres]
      dsimp only
      rw [List.countP_append]
      have h1 : (errorAPIEvents (APIErr.str "E_RECOVERED") 500 []).countP
          (fun ev => isRecoveredEnvelope ev) = 1 := by decide
      rw [h1]

/-- Witness for C6: a probe handler runs, the second handler panics, the
trailing probe never runs, and the dispatcher converts the panic into a
single E_RECOVERED envelope with HTTP 500. -/
theorem c6_panic_recovered_witness :
    runChain ([probeHandler] ++ panicHandler :: [probeHandler]) emptyData [] [] =
      ChainResult.panicked [WriteEvent.body "probe"] [] 2 ∧
    respondChain true [probeHandler, panicHandler, probeHandler] emptyData [] [] =
      ⟨[WriteEvent.body "probe"] ++ errorAPIEvents (APIErr.str "E_RECOVERED") 500 [],
       [] ++ [LogEvent.error "panic recovered error"],
       some (emptyData, []), 2, true, Outcome.panicRecovered⟩ ∧
    (respondChain true [probeHandler, panicHandler, probeHandler]
        emptyData [] []).writes.countP (fun ev => isRecoveredEnvelope ev) = 1 := by
  have hc := c6_panic_recovered [probeHandler] [probeHandler] panicHandler
    emptyData emptyData [] [WriteEvent.body "probe"] [WriteEvent.body "probe"]
    [] [] [] 1 (by rfl) (by rfl)
  have h2 := hc.2 true [probeHandler, panicHandler, probeHandler]
    emptyData [] [] [WriteEvent.body "probe"] [] 2 hc.1
  exact ⟨hc.1, h2.1, by rw [h2.2.2]; rfl⟩

/-- C1 counterexample: at this concrete input the Authorization header
carries a correctly signed but expired token (it parses, the HMAC family is
accepted, but the expiry check fails), and the dispatcher does NOT continue
as anonymous: it writes an HTTP 400 error response and runs none of the
handlers, never reaching the chain. -/
theorem c1_counterexample :
    (DefaultHandler true false true [] [probeHandler] jwtSecret 100
        expiredReq).handlersRan = 0 ∧
    (DefaultHandler true false true [] [probeHandler] jwtSecret 100
        expiredReq).preChain = none ∧
    (DefaultHandler true false true [] [probeHandler] jwtSecret 100
        expiredReq).outcome = Outcome.errAuthFormat ∧
    WriteEvent.status 400 ∈
      (DefaultHandler true false true [] [probeHandler] jwtSecret 100
        expiredReq).writes := by
  refine ⟨by decide, by decide, by decide, by decide⟩

/-- C1 amended: a request whose Authorization header carries a token that
parses but is invalid (expired, badly signed, or of a non-HMAC family) is
not treated as anonymous: token parsing returns a non-nil error and the
dispatcher aborts with an HTTP 400 error response before any handler runs.
Only an absent header proceeds with zeroed identity. -/
theorem c1_invalid_token_aborts (installed dbConnNil configExists : Bool)
    (schema : List (String × Nat)) (handlers : List Handler) (secret : String)
    (now : Int) (req : Request) (msg : String)
    (hgate : ¬ notInstalledGate installed dbConnNil configExists req)
    (htok : jwtToken req.auth secret now = ParseResult.parseError msg) :
    DefaultHandler installed dbConnNil configExists schema handlers secret
        now req =
      ⟨baseHeaders ++ errorAPIEvents (APIErr.err msg) 400 [],
       baseLog ++ [LogEvent.error "starting session"],
       none, 0, installed || req.path != "/api/v2/install",
       Outcome.errAuthFormat⟩ := by
  unfold DefaultHandler
  rw [if_neg hgate]
  unfold dispatchAfterAuth
  rw [htok]
  rfl

/-- Witness for C1's amended theorem at the concrete expired-token request. -/
theorem c1_invalid_token_aborts_witness :
    DefaultHandler true false true [] [probeHandler] jwtSecret 100 expiredReq =
      ⟨baseHeaders ++ errorAPIEvents (APIErr.err "Token is expired") 400 [],
       baseLog ++ [LogEvent.error "starting session"],
       none, 0, true || expiredReq.path != "/api/v2/install",
       Outcome.errAuthFormat⟩ :=
  c1_invalid_token_aborts true false true [] [probeHandler] jwtSecret 100
    expiredReq "Token is expired" (by decide) (by decide)

/-- C10: for every request whose token verifies but whose Wallet claim is
the empty string, the identity fields are never parsed and the `apiData`
handed to the handler chain keeps wallet = 0 and state = 0, even when the
State claim is non-empty and numeric. -/
theorem c10_empty_wallet_anonymous (installed dbConnNil configExists : Bool)
    (schema : List (String × Nat)) (handlers : List Handler) (secret : String)
    (now : Int) (req : Request) (t : Token) (d : ApiData) (lg : List LogEvent)
    (htok : jwtToken req.auth secret now = ParseResult.valid t)
    (hw : t.claims.wallet = "")
    (hpc : (DefaultHandler installed dbConnNil configExists schema handlers
        secret now req).preChain = some (d, lg)) :
    d.state = 0 ∧ d.wallet = 0 := by
  unfold DefaultHandler at hpc
  by_cases hg : notInstalledGate installed dbConnNil configExists req
  · rw [if_pos hg] at hpc
    simp at hpc
  · rw [if_neg hg] at hpc
    unfold dispatchAfterAuth at hpc
    rw [htok] at hpc
    dsimp only at hpc
    unfold dispatchParams at hpc
    have hid : claimsIdentity (ParseResult.valid t) baseLog = (0, 0, baseLog) := by
      simp [claimsIdentity, hw]
    rw [hid] at hpc
    dsimp only at hpc
    cases hc : coerceParams req.form schema (initPathParams req) baseLog with
    | abortMissing k l1 => rw [hc] at hpc; simp at hpc
    | abortHex k l1 => rw [hc] at hpc; simp at hpc
    | ok ps l1 =>
      rw [hc] at hpc
      dsimp only at hpc
      rw [respondChain_preChain] at hpc
      cases hpc
      exact ⟨rfl, rfl⟩

/-- Witness for C10 at a concrete valid token with Wallet = "" and a numeric
State claim "2". -/
theorem c10_empty_wallet_anonymous_witness :
    (0 : Int) = 0 ∧ (0 : Int) = 0 :=
  c10_empty_wallet_anonymous true false true [] [probeHandler] jwtSecret 100
    emptyWalletReq ⟨SigningMethod.HS256, emptyWalletClaims, true⟩
    ⟨0, ResultVal.null, [], 0, 0,
      ParseResult.valid ⟨SigningMethod.HS256, emptyWalletClaims, true⟩⟩
    baseLog (by decide) (by decide) (by decide)

/-- An integer-kind schema entry whose value does not parse is stored as 0
and only logged; the request reaches the handler chain when the rest of the
schema coerces. -/
lemma dispatchParams_int_permissive (i : Bool) (s1 s2 : List (String × Nat))
    (handlers : List Handler) (req : Request) (tok : ParseResult)
    (w : List WriteEvent) (l : List LogEvent) (key : String) (par : Nat)
    (v : String)
    (hkind : par &&& 255 = pInt64)
    (hval : formValue req.form key = v)
    (hnm : ¬(par &&& pOptional = 0 ∧ v = ""))
    (hparse : parseInt64 v = (0, false))
    (hpre : ∃ a b, coerceParams req.form s1 [] [] = CoerceResult.ok a b)
    (hrest : ∃ a b, coerceParams req.form s2 [] [] = CoerceResult.ok a b)
    (hnotin : key ∉ s2.map Prod.fst) :
    ∃ a2 b2,
      (dispatchParams i (s1 ++ (key, par) :: s2) handlers req tok w l).preChain =
        some (⟨0, ResultVal.null, a2, (claimsIdentity tok l).1,
          (claimsIdentity tok l).2.1, tok⟩, b2) ∧
      lookupParam a2 key = some (ParamValue.int 0) ∧
      LogEvent.error "converting http parameter to int" ∈ b2 := by
  obtain ⟨a0, b0, h0⟩ := hpre
  obtain ⟨a1, b1, h1⟩ := coerce_ok_indep req.form s1 [] [] (initPathParams req)
    (claimsIdentity tok l).2.2 a0 b0 h0
  unfold dispatchParams
  rw [coerce_append req.form s1 ((key, par) :: s2) (initPathParams req)
    (claimsIdentity tok l).2.2, h1]
  dsimp only
  have hstep : coerceParams req.form ((key, par) :: s2) a1 b1 =
      coerceParams req.form s2 (insertParam a1 key (ParamValue.int 0))
        (b1 ++ [LogEvent.error "converting http parameter to int"]) := by
    simp only [coerceParams, hval, hparse]
    rw [if_neg hnm, if_pos hkind]
    simp
  rw [hstep]
  obtain ⟨a2r, b2r, h2r⟩ := hrest
  obtain ⟨a2, b2, h2⟩ := coerce_ok_indep req.form s2 [] []
    (insertParam a1 key (ParamValue.int 0))
    (b1 ++ [LogEvent.error "converting http parameter to int"]) a2r b2r h2r
  rw [h2]
  dsimp only
  refine ⟨a2, b2, ?_, ?_, ?_⟩
  · rw [respondChain_preChain]
  · rw [coerce_preserves_other req.form s2 _ _ _ _ key h2 hnotin,
      lookup_insertParam_eq]
  · obtain ⟨sfx, hsfx⟩ := coerce_log_extends req.form s2 _ _ _ _ h2
    rw [hsfx]
    simp

/-- C2 counterexample: the claim says a non-numeric integer parameter is
absent from the typed map; at this concrete input (required integer
parameter "num" with value "abc") the request proceeds, but the typed map
contains "num" bound to int64 0 — present, not absent (and the conversion
failure is logged at error severity, not warning). -/
theorem c2_counterexample :
    (DefaultHandler true false true [("num", 0)] [probeHandler] jwtSecret 100
        badIntReq).preChain =
      some (⟨0, ResultVal.null, [("num", ParamValue.int 0)], 0, 0,
        ParseResult.noToken⟩,
        [LogEvent.info "received http request",
         LogEvent.error "converting http parameter to int"]) ∧
    (DefaultHandler true false true [("num", 0)] [probeHandler] jwtSecret 100
        badIntReq).handlersRan = 1 ∧
    (DefaultHandler true false true [("num", 0)] [probeHandler] jwtSecret 100
        badIntReq).outcome = Outcome.ok := by
  refine ⟨by decide, by decide, by decide⟩

/-- C2 amended: for every schema parameter of integer kind whose raw form
value is non-numeric text, the request is not aborted: the conversion
failure is logged (at error severity) and the request proceeds with that
parameter present in the typed parameter map with value int64 0. -/
theorem c2_int_parse_permissive (installed dbConnNil configExists : Bool)
    (s1 s2 : List (String × Nat)) (handlers : List Handler) (secret : String)
    (now : Int) (req : Request) (key : String) (par : Nat) (v : String)
    (hgate : ¬ notInstalledGate installed dbConnNil configExists req)
    (htok : ∀ msg, jwtToken req.auth secret now ≠ ParseResult.parseError msg)
    (hkind : par &&& 255 = pInt64)
    (hval : formValue req.form key = v)
    (hnm : ¬(par &&& pOptional = 0 ∧ v = ""))
    (hparse : parseInt64 v = (0, false))
    (hpre : ∃ a b, coerceParams req.form s1 [] [] = CoerceResult.ok a b)
    (hrest : ∃ a b, coerceParams req.form s2 [] [] = CoerceResult.ok a b)
    (hnotin : key ∉ s2.map Prod.fst) :
    (DefaultHandler installed dbConnNil configExists (s1 ++ (key, par) :: s2)
        handlers secret now req).preChain.isSome = true ∧
    (∀ d lg,
      (DefaultHandler installed dbConnNil configExists (s1 ++ (key, par) :: s2)
          handlers secret now req).preChain = some (d, lg) →
      lookupParam d.params key = some (ParamValue.int 0) ∧
      LogEvent.error "converting http parameter to int" ∈ lg) := by
  unfold DefaultHandler
  rw [if_neg hgate]
  unfold dispatchAfterAuth
  cases ht : jwtToken req.auth secret now with
  | parseError msg => exact absurd ht (htok msg)
  | noToken =>
    dsimp only
    obtain ⟨a2, b2, hpc, hlook, hmem⟩ := dispatchParams_int_permissive
      (installed || req.path != "/api/v2/install") s1 s2 handlers req
      ParseResult.noToken baseHeaders baseLog key par v hkind hval hnm hparse
      hpre hrest hnotin
    rw [hpc]
    refine ⟨rfl, ?_⟩
    intro d lg h
    cases h
    exact ⟨hlook, hmem⟩
  | valid t =>
    dsimp only
    obtain ⟨a2, b2, hpc, hlook, hmem⟩ := dispatchParams_int_permissive
      (installed || req.path != "/api/v2/install") s1 s2 handlers req
      (ParseResult.valid t) baseHeaders baseLog key par v hkind hval hnm hparse
      hpre hrest hnotin
    rw [hpc]
    refine ⟨rfl, ?_⟩
    intro d lg h
    cases h
    exact ⟨hlook, hmem⟩

/-- Witness for C2's amended theorem at the concrete request with "num" =
"abc" under a required integer schema entry. -/
theorem c2_int_parse_permissive_witness :
    (DefaultHandler true false true ([] ++ ("num", 0) :: []) [probeHandler]
        jwtSecret 100 badIntReq).preChain.isSome = true ∧
    lookupParam [("num", ParamValue.int 0)] "num" = some (ParamValue.int 0) ∧
    LogEvent.error "converting http parameter to int" ∈
      [LogEvent.info "received http request",
       LogEvent.error "converting http parameter to int"] := by
  have hc := c2_int_parse_permissive true false true [] [] [probeHandler]
    jwtSecret 100 badIntReq "num" 0 "abc" (by decide)
    (fun msg h => ParseResult.noConfusion h) (by decide) (by decide)
    (by decide) (by decide) ⟨[], [], rfl⟩ ⟨[], [], rfl⟩ (by simp)
  exact ⟨hc.1, hc.2 ⟨0, ResultVal.null, [("num", ParamValue.int 0)], 0, 0,
    ParseResult.noToken⟩
    [LogEvent.info "received http request",
     LogEvent.error "converting http parameter to int"] (by decide)⟩

/-- A required schema entry with an empty form value aborts the parameter
stage with E_UNDEFINEVAL and HTTP 400 before any handler runs. -/
lemma dispatchParams_missing (i : Bool) (s1 s2 : List (String × Nat))
    (handlers : List Handler) (req : Request) (tok : ParseResult)
    (w : List WriteEvent) (l : List LogEvent) (key : String) (par : Nat)
    (hpre : ∃ a b, coerceParams req.form s1 [] [] = CoerceResult.ok a b)
    (hreq : par &&& pOptional = 0)
    (hval : formValue req.form key = "") :
    (dispatchParams i (s1 ++ (key, par) :: s2) handlers req tok w l).writes =
      w ++ errorAPIEvents (APIErr.str "E_UNDEFINEVAL") 400 [key] ∧
    (dispatchParams i (s1 ++ (key, par) :: s2) handlers req tok w l).preChain =
      none ∧
    (dispatchParams i (s1 ++ (key, par) :: s2) handlers req tok w l).handlersRan =
      0 ∧
    (dispatchParams i (s1 ++ (key, par) :: s2) handlers req tok w l).outcome =
      Outcome.errMissingParam := by
  obtain ⟨a0, b0, h0⟩ := hpre
  obtain ⟨a1, b1, h1⟩ := coerce_ok_indep req.form s1 [] [] (initPathParams req)
    (claimsIdentity tok l).2.2 a0 b0 h0
  have hstep : coerceParams req.form ((key, par) :: s2) a1 b1 =
      CoerceResult.abortMissing key (b1 ++ [LogEvent.error "undefined val"]) := by
    simp only [coerceParams, hval]
    rw [if_pos ⟨hreq, trivial⟩]
  unfold dispatchParams
  rw [coerce_append req.form s1 ((key, par) :: s2) (initPathParams req)
    (claimsIdentity tok l).2.2, h1]
  dsimp only
  rw [hstep]
  exact ⟨rfl, rfl, rfl, rfl⟩

/-- C8: for every schema entry marked required whose raw form value is empty
or absent, the request is aborted with HTTP 400 and an E_UNDEFINEVAL error
envelope whose params name the missing key; no handler runs. -/
theorem c8_missing_required_aborts (installed dbConnNil configExists : Bool)
    (s1 s2 : List (String × Nat)) (handlers : List Handler) (secret : String)
    (now : Int) (req : Request) (key : String) (par : Nat)
    (hgate : ¬ notInstalledGate installed dbConnNil configExists req)
    (htok : ∀ msg, jwtToken req.auth secret now ≠ ParseResult.parseError msg)
    (hpre : ∃ a b, coerceParams req.form s1 [] [] = CoerceResult.ok a b)
    (hreq : par &&& pOptional = 0)
    (hval : formValue req.form key = "") :
    (DefaultHandler installed dbConnNil configExists (s1 ++ (key, par) :: s2)
        handlers secret now req).writes =
      baseHeaders ++ errorAPIEvents (APIErr.str "E_UNDEFINEVAL") 400 [key] ∧
    (DefaultHandler installed dbConnNil configExists (s1 ++ (key, par) :: s2)
        handlers secret now req).preChain = none ∧
    (DefaultHandler installed dbConnNil configExists (s1 ++ (key, par) :: s2)
        handlers secret now req).handlersRan = 0 ∧
    (DefaultHandler installed dbConnNil configExists (s1 ++ (key, par) :: s2)
        handlers secret now req).outcome = Outcome.errMissingParam ∧
    errorAPIEvents (APIErr.str "E_UNDEFINEVAL") 400 [key] =
      [WriteEvent.header "X-Content-Type-Options" "nosniff",
       WriteEvent.status 400,
       WriteEvent.errBody "E_UNDEFINEVAL"
         (sprintfModel "Undefined value %s" [key]) (some [quoteStr key])] := by
  unfold DefaultHandler
  rw [if_neg hgate]
  unfold dispatchAfterAuth
  cases ht : jwtToken req.auth secret now with
  | parseError msg => exact absurd ht (htok msg)
  | noToken =>
    dsimp only
    obtain ⟨hw, hp, hr, ho⟩ := dispatchParams_missing
      (installed || req.path != "/api/v2/install") s1 s2 handlers req
      ParseResult.noToken baseHeaders baseLog key par hpre hreq hval
    exact ⟨hw, hp, hr, ho, rfl⟩
  | valid t =>
    dsimp only
    obtain ⟨hw, hp, hr, ho⟩ := dispatchParams_missing
      (installed || req.path != "/api/v2/install") s1 s2 handlers req
      (ParseResult.valid t) baseHeaders baseLog key par hpre hreq hval
    exact ⟨hw, hp, hr, ho, rfl⟩

/-- Witness for C8 at a concrete request missing the required string
parameter "name": HTTP 400 with the envelope naming "name", no handler
runs. -/
theorem c8_missing_required_aborts_witness :
    (DefaultHandler true false true ([] ++ ("name", 2) :: []) [probeHandler]
        jwtSecret 100 emptyFormReq).writes =
      baseHeaders ++ errorAPIEvents (APIErr.str "E_UNDEFINEVAL") 400 ["name"] ∧
    (DefaultHandler true false true ([] ++ ("name", 2) :: []) [probeHandler]
        jwtSecret 100 emptyFormReq).handlersRan = 0 ∧
    errorAPIEvents (APIErr.str "E_UNDEFINEVAL") 400 ["name"] =
      [WriteEvent.header "X-Content-Type-Options" "nosniff",
       WriteEvent.status 400,
       WriteEvent.errBody "E_UNDEFINEVAL"
         (sprintfModel "Undefined value %s" ["name"]) (some [quoteStr "name"])] := by
  have hc := c8_missing_required_aborts true false true [] [] [probeHandler]
    jwtSecret 100 emptyFormReq "name" 2 (by decide)
    (fun msg h => ParseResult.noConfusion h) ⟨[], [], rfl⟩ (by decide) (by decide)
  exact ⟨hc.1, hc.2.2.1, hc.2.2.2.2⟩

/-- A reached hex-kind schema entry whose value does not hex-decode aborts
the parameter stage with HTTP 400 before any handler runs. -/
lemma dispatchParams_hex_abort (i : Bool) (s1 s2 : List (String × Nat))
    (handlers : List Handler) (req : Request) (tok : ParseResult)
    (w : List WriteEvent) (l : List LogEvent) (key : String) (par : Nat)
    (v : String)
    (hpre : ∃ a b, coerceParams req.form s1 [] [] = CoerceResult.ok a b)
    (hkind : par &&& 255 = pHex)
    (hval : formValue req.form key = v)
    (hnm : ¬(par &&& pOptional = 0 ∧ v = ""))
    (hhex : hexDecode v = none) :
    (dispatchParams i (s1 ++ (key, par) :: s2) handlers req tok w l).writes =
      w ++ errorAPIEvents (APIErr.err "encoding/hex: invalid byte") 400 [] ∧
    (dispatchParams i (s1 ++ (key, par) :: s2) handlers req tok w l).preChain =
      none ∧
    (dispatchParams i (s1 ++ (key, par) :: s2) handlers req tok w l).handlersRan =
      0 ∧
    (dispatchParams i (s1 ++ (key, par) :: s2) handlers req tok w l).outcome =
      Outcome.errHexDecode := by
  obtain ⟨a0, b0, h0⟩ := hpre
  obtain ⟨a1, b1, h1⟩ := coerce_ok_indep req.form s1 [] [] (initPathParams req)
    (claimsIdentity tok l).2.2 a0 b0 h0
  have hni : ¬(par &&& 255 = pInt64) := by rw [hkind]; decide
  have hstep : coerceParams req.form ((key, par) :: s2) a1 b1 =
      CoerceResult.abortHex key
        (b1 ++ [LogEvent.error "decoding http parameter from hex"]) := by
    simp only [coerceParams, hval]
    rw [if_neg hnm, if_neg hni, if_pos hkind, hhex]
  unfold dispatchParams
  rw [coerce_append req.form s1 ((key, par) :: s2) (initPathParams req)
    (claimsIdentity tok l).2.2, h1]
  dsimp only
  rw [hstep]
  exact ⟨rfl, rfl, rfl, rfl⟩

/-- C9 counterexample: the claim says empty input for a hex-kind parameter is
a hard failure; at this concrete input (optional hex parameter "sig" with an
empty value) the request is not aborted: the handler runs, no 400 status is
written, and the typed map holds "sig" bound to an empty byte slice. -/
theorem c9_counterexample :
    (DefaultHandler true false true [("sig", 257)] [probeHandler] jwtSecret 100
        emptyFormReq).handlersRan = 1 ∧
    (DefaultHandler true false true [("sig", 257)] [probeHandler] jwtSecret 100
        emptyFormReq).outcome = Outcome.ok ∧
    WriteEvent.status 400 ∉
      (DefaultHandler true false true [("sig", 257)] [probeHandler] jwtSecret 100
        emptyFormReq).writes ∧
    (DefaultHandler true false true [("sig", 257)] [probeHandler] jwtSecret 100
        emptyFormReq).preChain =
      some (⟨0, ResultVal.null, [("sig", ParamValue.bytes [])], 0, 0,
        ParseResult.noToken⟩, baseLog) := by
  refine ⟨by decide, by decide, by decide, by decide⟩

/-- C9 amended: for a hex-kind schema parameter, malformed (non-hexadecimal
or odd-length) input is a hard failure — the request aborts with HTTP 400
and no handler runs; empty input is a hard failure only when the parameter
is required (it is then rejected as a missing parameter); an optional
hex-kind parameter with empty input is decoded to an empty byte slice and
coercion continues. -/
theorem c9_hex_policy (installed dbConnNil configExists : Bool)
    (s1 s2 : List (String × Nat)) (handlers : List Handler) (secret : String)
    (now : Int) (req : Request) (key : String) (par : Nat) (v : String)
    (hgate : ¬ notInstalledGate installed dbConnNil configExists req)
    (htok : ∀ msg, jwtToken req.auth secret now ≠ ParseResult.parseError msg)
    (hpre : ∃ a b, coerceParams req.form s1 [] [] = CoerceResult.ok a b)
    (hkind : par &&& 255 = pHex)
    (hval : formValue req.form key = v)
    (hnm : ¬(par &&& pOptional = 0 ∧ v = ""))
    (hhex : hexDecode v = none) :
    ((DefaultHandler installed dbConnNil configExists (s1 ++ (key, par) :: s2)
        handlers secret now req).writes =
      baseHeaders ++ errorAPIEvents (APIErr.err "encoding/hex: invalid byte") 400 [] ∧
    (DefaultHandler installed dbConnNil configExists (s1 ++ (key, par) :: s2)
        handlers secret now req).handlersRan = 0 ∧
    (DefaultHandler installed dbConnNil configExists (s1 ++ (key, par) :: s2)
        handlers secret now req).outcome = Outcome.errHexDecode) ∧
    (∀ (form : List (String × String)) (rest : List (String × Nat))
       (ps : List (String × ParamValue)) (l2 : List LogEvent) (k2 : String)
       (p2 : Nat), p2 &&& 255 = pHex → ¬ p2 &&& pOptional = 0 →
       formValue form k2 = "" →
       coerceParams form ((k2, p2) :: rest) ps l2 =
         coerceParams form rest (insertParam ps k2 (ParamValue.bytes [])) l2) ∧
    (∀ (form : List (String × String)) (rest : List (String × Nat))
       (ps : List (String × ParamValue)) (l2 : List LogEvent) (k2 : String)
       (p2 : Nat), p2 &&& pOptional = 0 → formValue form k2 = "" →
       coerceParams form ((k2, p2) :: rest) ps l2 =
         CoerceResult.abortMissing k2 (l2 ++ [LogEvent.error "undefined val"])) := by
  refine ⟨?_, ?_, ?_⟩
  · unfold DefaultHandler
    rw [if_neg hgate]
    unfold dispatchAfterAuth
    cases ht : jwtToken req.auth secret now with
    | parseError msg => exact absurd ht (htok msg)
    | noToken =>
      dsimp only
      obtain ⟨hw, _, hr, ho⟩ := dispatchParams_hex_abort
        (installed || req.path != "/api/v2/install") s1 s2 handlers req
        ParseResult.noToken baseHeaders baseLog key par v hpre hkind hval hnm hhex
      exact ⟨hw, hr, ho⟩
    | valid t =>
      dsimp only
      obtain ⟨hw, _, hr, ho⟩ := dispatchParams_hex_abort
        (installed || req.path != "/api/v2/install") s1 s2 handlers req
        (ParseResult.valid t) baseHeaders baseLog key par v hpre hkind hval hnm hhex
      exact ⟨hw, hr, ho⟩
  · intro form rest ps l2 k2 p2 hk2 hopt2 hv2
    have hni : ¬(p2 &&& 255 = pInt64) := by rw [hk2]; decide
    have hdec : hexDecode (formValue form k2) = some [] := by rw [hv2]; rfl
    simp only [coerceParams]
    rw [if_neg (fun hcon => hopt2 hcon.1), if_neg hni, if_pos hk2, hdec]
  · intro form rest ps l2 k2 p2 hreq2 hv2
    simp only [coerceParams]
    rw [if_pos ⟨hreq2, hv2⟩]

/-- Witness for C9's amended theorem: a required hex parameter "sig" with
value "zz" aborts with 400 and no handler runs; an optional hex parameter
with empty input continues with an empty byte slice; a required hex
parameter with empty input is rejected as missing. -/
theorem c9_hex_policy_witness :
    ((DefaultHandler true false true ([] ++ ("sig", 1) :: []) [probeHandler]
        jwtSecret 100 badHexReq).writes =
      baseHeaders ++ errorAPIEvents (APIErr.err "encoding/hex: invalid byte") 400 [] ∧
    (DefaultHandler true false true ([] ++ ("sig", 1) :: []) [probeHandler]
        jwtSecret 100 badHexReq).handlersRan = 0 ∧
    (DefaultHandler true false true ([] ++ ("sig", 1) :: []) [probeHandler]
        jwtSecret 100 badHexReq).outcome = Outcome.errHexDecode) ∧
    coerceParams [] (("sig", 257) :: []) [] [] =
      coerceParams [] [] (insertParam [] "sig" (ParamValue.bytes [])) [] ∧
    coerceParams [] (("sig", 1) :: []) [] [] =
      CoerceResult.abortMissing "sig" ([] ++ [LogEvent.error "undefined val"]) := by
  have hc := c9_hex_policy true false true [] [] [probeHandler] jwtSecret 100
    badHexReq "sig" 1 "zz" (by decide) (fun msg h => ParseResult.noConfusion h)
    ⟨[], [], rfl⟩ (by decide) (by decide) (by decide) (by decide)
  exact ⟨hc.1,
    hc.2.1 [] [] [] [] "sig" 257 (by decide) (by decide) (by decide),
    hc.2.2 [] [] [] [] "sig" 1 (by decide) (by decide)⟩

end ApiV2
